import Mathlib

/-!
Verification of the analytics/aggregation layer and the cache service of the
cancer-statistics dashboard (app/services/analytics.py, app/services/cache.py,
app/services/data.py, app/routes/api.py), as a shallow embedding in Lean 4.

Modelling conventions:
* Python/pandas floats are embedded as exact rationals (`ℚ`).  The code only
  ever uses standard deviations, z-scores and Pearson correlations in order
  comparisons (or reports them verbatim), so quantities of the form `√q` are
  represented by the rational `q` itself (a field named `..._sq` or a
  `CorrVal`), and every comparison the source makes on `√q` is embedded as the
  equivalent comparison on `q` (squaring both sides; square root is monotone).
* A pandas `DataFrame` of cancer records is a `List Record` (`Table`).
* A Python exception is the `Except.error` branch of a body function; each
  public operation is the body wrapped by the `try/except` boundary of the
  source, which converts exceptions into the operation's error shape.
* The SQL `ORDER BY "Year", "State or Territory"` of the data query only
  affects row order; every verified property is row-order independent (the
  per-year/per-state groupings re-sort their keys), so `getCancerData` is
  embedded as a plain filter.
-/

/-- One row of the cancer table, schema of `_get_cancer_data_impl`'s query. -/
structure Record where
  cancer_type : String
  year : ℤ
  sex : String
  state : String
  mortality_count : ℚ
  mortality_rate : ℚ
  incidence_rate : ℚ
  incidence_count : ℚ
deriving DecidableEq, Repr

/-- A pandas DataFrame of cancer records. -/
abbrev Table := List Record

/-- Column access `row[metric]`: `some` value for the four numeric columns,
`none` (a pandas `KeyError`) for any other column name. -/
def metricOf (r : Record) (metric : String) : Option ℚ :=
  if metric = "mortality_count" then some r.mortality_count
  else if metric = "mortality_rate" then some r.mortality_rate
  else if metric = "incidence_rate" then some r.incidence_rate
  else if metric = "incidence_count" then some r.incidence_count
  else none

/-- Whether a metric name is one of the four numeric columns. -/
def isMetric (metric : String) : Bool :=
  metric = "mortality_count" || metric = "mortality_rate" ||
  metric = "incidence_rate" || metric = "incidence_count"

/-- The message of the `KeyError` pandas raises for a missing column. -/
def keyError (metric : String) : String := "KeyError: " ++ metric

/-- The metric column of a table (total; callers guard with `isMetric`,
mirroring the `KeyError` raised at the first column access). -/
def colVals (tbl : Table) (metric : String) : List ℚ :=
  tbl.filterMap (fun r => metricOf r metric)

/-- `DataService._get_cancer_data_impl`: the backing table filtered by the
optional equality conditions on state, year and cancer type. -/
def getCancerData (tbl : Table) (state : Option String) (year : Option ℤ)
    (cancer_type : Option String) : Table :=
  tbl.filter fun r =>
    (match state with | none => true | some s => r.state = s) &&
    (match year with | none => true | some y => r.year = y) &&
    (match cancer_type with | none => true | some c => r.cancer_type = c)

/-- Mean of a column (`Series.mean`); junk value `0` on the empty list, which
every caller rules out. -/
def meanQ (l : List ℚ) : ℚ := l.sum / l.length

/-- Sample variance (`Series.std()` squared, pandas default `ddof=1`); the
code reports `√(varSampQ l)` and only ever compares it with `0`. -/
def varSampQ (l : List ℚ) : ℚ :=
  (l.map (fun x => (x - meanQ l) ^ 2)).sum / (l.length - 1 : ℕ)

/-- Population variance (`np.std` squared, `ddof=0`); reported as
`√(varPopQ l)` by the trend computation. -/
def varPopQ (l : List ℚ) : ℚ :=
  (l.map (fun x => (x - meanQ l) ^ 2)).sum / l.length

/-- Maximum of a list of rationals, `0` on the empty list (Python `max` over
a non-empty collection; the default is never exercised by guarded callers). -/
def maxD (l : List ℚ) : ℚ :=
  match l with
  | [] => 0
  | x :: xs => xs.foldl max x

/-- Minimum of a list of rationals, `0` on the empty list. -/
def minD (l : List ℚ) : ℚ :=
  match l with
  | [] => 0
  | x :: xs => xs.foldl min x

/-- Maximum of a list of years, `0` on the empty list (`data['year'].max()`;
callers guard non-emptiness). -/
def maxYearD (l : List ℤ) : ℤ :=
  match l with
  | [] => 0
  | x :: xs => xs.foldl max x

/-- `Series.median()`: middle element of the sorted values, or the average of
the two middle elements for an even count. -/
def medianQ (l : List ℚ) : ℚ :=
  let s := List.insertionSort (· ≤ ·) l
  let n := s.length
  if n % 2 = 1 then s.getD (n / 2) 0
  else (s.getD (n / 2 - 1) 0 + s.getD (n / 2) 0) / 2

/-- First-occurrence deduplication: the key order of a Python dict populated
in a loop (later duplicates overwrite with an identical value). -/
def dedupFirst {α : Type} [DecidableEq α] : List α → List α
  | [] => []
  | x :: rest => x :: (dedupFirst rest).filter (fun y => y ≠ x)

/-- Rows of the table at a given year (one pandas year group). -/
def rowsOfYear (tbl : Table) (yr : ℤ) : Table := tbl.filter (fun r => r.year = yr)

/-- Rows of the table for a given state (one pandas state group). -/
def rowsOfState (tbl : Table) (s : String) : Table := tbl.filter (fun r => r.state = s)

/-- The distinct years of a table, ascending — the group keys of
`data.groupby('year')` (pandas sorts group keys). -/
def sortedYears (tbl : Table) : List ℤ :=
  List.insertionSort (· ≤ ·) (dedupFirst (tbl.map (·.year)))

/-- The distinct states of a table, ascending — the group keys of
`data.groupby('state')`. -/
def sortedStates (tbl : Table) : List String :=
  List.insertionSort (fun a b => a ≤ b) (dedupFirst (tbl.map (·.state)))

/-- Per-year mean of a metric column (`data.groupby('year')[metric].mean()`
at one year key). -/
def yearMean (tbl : Table) (metric : String) (yr : ℤ) : ℚ :=
  meanQ (colVals (rowsOfYear tbl yr) metric)

/-- `Σ (xᵢ - x̄)·(yᵢ - ȳ)` over zipped columns: the centered cross sum the
least-squares slope and the Pearson correlation are built from. -/
def sxyQ (xs ys : List ℚ) : ℚ :=
  ((xs.zip ys).map (fun p => (p.1 - meanQ xs) * (p.2 - meanQ ys))).sum

/-- `Σ (xᵢ - x̄)²`, the centered square sum. -/
def sxxQ (xs : List ℚ) : ℚ := (xs.map (fun x => (x - meanQ xs) ^ 2)).sum

/-- A Pearson correlation `r = sxy / √(sxxSyy)` represented exactly by its
numerator and the square of its denominator; the code only reports `r` and
compares `|r|`/`r` against constants, which this representation decides
exactly (`|r| ≥ c ↔ sxy² ≥ c²·sxxSyy` and `r > 0 ↔ sxy > 0`, given
`sxxSyy > 0`; a zero `sxxSyy` is pandas' NaN correlation, for which every
such comparison is false). -/
structure CorrVal where
  sxy : ℚ
  sxxSyy : ℚ
deriving DecidableEq, Repr

/-- The Pearson correlation of two columns as a `CorrVal`
(`np.corrcoef` / `DataFrame.corr` entry). -/
def pearsonRep (xs ys : List ℚ) : CorrVal :=
  { sxy := sxyQ xs ys, sxxSyy := sxxQ xs * sxxQ ys }

/-! ## Trend computation (`_calculate_trends_impl`) -/

/-- The success dict of `_calculate_trends_impl`.  `correlation` represents
the reported float `sxy/√sxxSyy`; `std_value_sq` the square of the reported
`np.std(y)`; `percent_change` is junk (`0`) when `first_value = 0`, where the
source's IEEE division produces a non-finite float without raising. -/
structure TrendResult where
  trend_direction : String
  slope : ℚ
  correlation : CorrVal
  percent_change : ℚ
  years_analyzed : ℕ
  first_year : ℤ
  last_year : ℤ
  first_value : ℚ
  last_value : ℚ
  mean_value : ℚ
  std_value_sq : ℚ
deriving DecidableEq, Repr

/-- Return value of the trend operation: an explicit `{'error': msg}` dict or
the success dict. -/
inductive TrendOut where
  | err (msg : String)
  | ok (r : TrendResult)
deriving DecidableEq, Repr

/-- Whether a trend output is a success dict (has no `error` key). -/
def TrendOut.isOk : TrendOut → Bool
  | .ok _ => true
  | .err _ => false

/-- The success dict built by `_calculate_trends_impl` from the (non-empty,
≥ 2 distinct years) filtered data. -/
def trendSuccess (data : Table) (metric : String) : TrendResult :=
  let years := sortedYears data
  let x : List ℚ := years.map (fun yr => (yr : ℚ))
  let y : List ℚ := years.map (fun yr => yearMean data metric yr)
  let slope := sxyQ x y / sxxQ x
  let first_value := y.headI
  let last_value := y.getLastI
  { trend_direction :=
      if slope > 1/10 then "increasing"
      else if slope < -(1/10) then "decreasing"
      else "stable",
    slope := slope,
    correlation := pearsonRep x y,
    percent_change := (last_value - first_value) / first_value * 100,
    years_analyzed := years.length,
    first_year := years.headI,
    last_year := years.getLastI,
    first_value := first_value,
    last_value := last_value,
    mean_value := meanQ y,
    std_value_sq := varPopQ y }

/-- Body of `_calculate_trends_impl` (everything inside the `try`); the
`Except.error` branch is a raised exception. -/
def trendsBody (tbl : Table) (state : Option String) (cancer_type : Option String)
    (metric : String) : Except String TrendOut :=
  let data := getCancerData tbl state none cancer_type
  if data = [] then .ok (.err "No data available")
  else if ¬ isMetric metric then .error (keyError metric)
  else if (sortedYears data).length < 2 then
    .ok (.err "Insufficient data for trend analysis")
  else .ok (.ok (trendSuccess data metric))

/-- `_calculate_trends_impl`: the body under its `try/except` boundary, which
turns a raised exception into `{'error': str(e)}`. -/
def _calculate_trends_impl (tbl : Table) (state : Option String)
    (cancer_type : Option String) (metric : String) : TrendOut :=
  match trendsBody tbl state cancer_type metric with
  | .ok out => out
  | .error e => .err e

/-! ## Top-N ranking (`_get_top_states_impl`) -/

/-- One row of the top-states answer: `{'state': s, metric: value}`. -/
structure TopStateRow where
  state : String
  value : ℚ
deriving DecidableEq, Repr

/-- Body of `_get_top_states_impl` (inside the `try`). -/
def topStatesBody (tbl : Table) (metric : String) (cancer_type : Option String)
    (year : Option ℤ) (limit : ℕ) : Except String (List TopStateRow) :=
  let data := getCancerData tbl none year cancer_type
  if data = [] then .ok []
  else
    let data2 := match year with
      | some _ => data
      | none => rowsOfYear data (maxYearD (data.map (·.year)))
    if ¬ isMetric metric then .error (keyError metric)
    else
      let grouped := (sortedStates data2).map
        (fun s => TopStateRow.mk s (meanQ (colVals (rowsOfState data2 s) metric)))
      .ok ((List.insertionSort (fun a b => b.value ≤ a.value) grouped).take limit)

/-- `_get_top_states_impl`: its `except` branch returns the empty list, not an
error object. -/
def _get_top_states_impl (tbl : Table) (metric : String) (cancer_type : Option String)
    (year : Option ℤ) (limit : ℕ) : List TopStateRow :=
  match topStatesBody tbl metric cancer_type year limit with
  | .ok rows => rows
  | .error _ => []

/-! ## Multi-state comparison (`_compare_states_impl`) -/

/-- The per-state summary dict of the comparison (before the rank is written
back).  `var_samp` is the square of the reported `std`. -/
structure StateStats where
  mean : ℚ
  median : ℚ
  min : ℚ
  max : ℚ
  var_samp : ℚ
  latest_value : ℚ
  records_count : ℕ
deriving DecidableEq, Repr

/-- The per-state stats of one non-empty filtered subset, assuming the metric
column exists (callers guard with `isMetric`). -/
def computeStateStats (d : Table) (metric : String) : StateStats :=
  let vals := colVals d metric
  { mean := meanQ vals,
    median := medianQ vals,
    min := minD vals,
    max := maxD vals,
    var_samp := varSampQ vals,
    latest_value := meanQ (colVals (rowsOfYear d (maxYearD (d.map (·.year)))) metric),
    records_count := d.length }

/-- One entry of `comparison_data` after ranks are assigned. -/
structure RankedEntry where
  state : String
  stats : StateStats
  rank_by_mean : ℕ
deriving DecidableEq, Repr

/-- The `summary` dict of the comparison result. -/
structure CompareSummary where
  highest_mean : ℚ
  lowest_mean : ℚ
  states_count : ℕ
deriving DecidableEq, Repr

/-- The success dict of `_compare_states_impl`.  `comparison_data` is the
mapping state ↦ stats-with-rank; the embedding lists its entries in rank
order (the Python dict iterates in insertion order, but its content as a
mapping is the same, and no verified property depends on entry order). -/
structure CompareResult where
  states_compared : List String
  metric : String
  cancer_type : Option String
  comparison_data : List RankedEntry
  summary : CompareSummary
deriving DecidableEq, Repr

/-- Return value of the comparison operation. -/
inductive CompareOut where
  | err (msg : String)
  | ok (r : CompareResult)
deriving DecidableEq, Repr

/-- The comparison loop: one `(state, stats)` pair per requested state whose
filtered subset is non-empty (iterated over the deduplicated state list —
Python dict keys; duplicates overwrite with an identical value).  The
`Except.error` branch is the `KeyError` raised at the first metric access. -/
def collectCompare (tbl : Table) (cancer_type : Option String) (metric : String) :
    List String → Except String (List (String × StateStats))
  | [] => .ok []
  | s :: rest =>
    let d := getCancerData tbl (some s) none cancer_type
    if d = [] then collectCompare tbl cancer_type metric rest
    else if ¬ isMetric metric then .error (keyError metric)
    else
      match collectCompare tbl cancer_type metric rest with
      | .error e => .error e
      | .ok l => .ok ((s, computeStateStats d metric) :: l)

/-- Rank assignment: sort the collected states by mean descending (Python
`sorted(..., reverse=True)`, stable) and write `rank_by_mean = i + 1`. -/
def rankEntries (items : List (String × StateStats)) : List RankedEntry :=
  ((List.insertionSort (fun a b => b.2.mean ≤ a.2.mean) items).enum).map
    (fun p => RankedEntry.mk p.2.1 p.2.2 (p.1 + 1))

/-- Body of `_compare_states_impl` (inside the `try`). -/
def compareBody (tbl : Table) (states : List String) (metric : String)
    (cancer_type : Option String) : Except String CompareOut :=
  match collectCompare tbl cancer_type metric (dedupFirst states) with
  | .error e => .error e
  | .ok items =>
    let means := items.map (fun p => p.2.mean)
    .ok (.ok {
      states_compared := states,
      metric := metric,
      cancer_type := cancer_type,
      comparison_data := rankEntries items,
      summary := {
        highest_mean := maxD means,
        lowest_mean := minD means,
        states_count := items.length } })

/-- `_compare_states_impl`: body under the `try/except` boundary. -/
def _compare_states_impl (tbl : Table) (states : List String) (metric : String)
    (cancer_type : Option String) : CompareOut :=
  match compareBody tbl states metric cancer_type with
  | .ok out => out
  | .error e => .err e

/-- Return value of the `/api/analytics/compare-states` route handler:
a 400 error response or the engine's output wrapped in a success response. -/
inductive CompareRoute where
  | badRequest (msg : String)
  | ok (out : CompareOut)
deriving DecidableEq, Repr

/-- The `compare_states` route handler (`app/routes/api.py`): rejects an
empty state list (`if not states`) with a 400 error before calling the
engine operation. -/
def compare_states_route (tbl : Table) (states : List String) (metric : String)
    (cancer_type : Option String) : CompareRoute :=
  if states = [] then .badRequest "No states provided for comparison"
  else .ok (_compare_states_impl tbl states metric cancer_type)

/-! ## Outlier detection (`_get_outliers_impl`) -/

/-- One formatted outlier row.  `z_score_sq` is the square of the reported
z-score `|value - mean| / std`; `deviation_from_mean` is signed. -/
structure OutlierRow where
  state : String
  year : ℤ
  cancer_type : String
  value : ℚ
  z_score_sq : ℚ
  deviation_from_mean : ℚ
deriving DecidableEq, Repr

/-- The full success dict of `_get_outliers_impl`.  `dataset_var` is the
square of the reported `dataset_std`. -/
structure OutlierResult where
  outliers : List OutlierRow
  total_outliers : ℕ
  total_records : ℕ
  threshold : ℚ
  metric : String
  dataset_mean : ℚ
  dataset_var : ℚ
deriving DecidableEq, Repr

/-- Return value of the outlier operation, one constructor per distinct dict
shape the source returns:
`emptyData` is `{'outliers': [], 'total_records': 0}` (empty table),
`noVariation` is `{'outliers': [], 'total_records': n, 'note': 'No variation in data'}`,
`ok` the full success dict, and `err` the `{'error': msg}` dict. -/
inductive OutlierOut where
  | emptyData
  | noVariation (total_records : ℕ)
  | ok (r : OutlierResult)
  | err (msg : String)
deriving DecidableEq, Repr

/-- The formatted row for one record: `z_score_sq = (v - μ)² / var`, the
square of the source's `z = |v - μ| / std`. -/
def mkOutlierRow (metric : String) (mean_val var_val : ℚ) (r : Record) : OutlierRow :=
  let v := (metricOf r metric).getD 0
  { state := r.state,
    year := r.year,
    cancer_type := r.cancer_type,
    value := v,
    z_score_sq := (v - mean_val) ^ 2 / var_val,
    deviation_from_mean := v - mean_val }

/-- The source's selection `z > threshold` on the squared representation:
`z ≥ 0` always, so a negative threshold selects every row, and otherwise
`z > t ↔ z² > t²`. -/
def zAboveThreshold (threshold : ℚ) (z_sq : ℚ) : Bool :=
  threshold < 0 || threshold ^ 2 < z_sq

/-- Body of `_get_outliers_impl` (inside the `try`).  A one-row table gets a
NaN sample std in pandas (every comparison false, so no outliers); the
embedding's junk variance `0` reaches the same empty-outliers outcome through
the `noVariation` shape, and every verified claim assumes a nonzero
variance, where the two agree exactly. -/
def outliersBody (tbl : Table) (metric : String) (threshold : ℚ) :
    Except String OutlierOut :=
  let data := getCancerData tbl none none none
  if data = [] then .ok .emptyData
  else if ¬ isMetric metric then .error (keyError metric)
  else
    let vals := colVals data metric
    let mean_val := meanQ vals
    let var_val := varSampQ vals
    if var_val = 0 then .ok (.noVariation data.length)
    else
      let rows := data.map (mkOutlierRow metric mean_val var_val)
      let selected := rows.filter (fun o => zAboveThreshold threshold o.z_score_sq)
      let sorted := List.insertionSort (fun a b => b.z_score_sq ≤ a.z_score_sq) selected
      .ok (.ok {
        outliers := sorted.take 20,
        total_outliers := selected.length,
        total_records := data.length,
        threshold := threshold,
        metric := metric,
        dataset_mean := mean_val,
        dataset_var := var_val })

/-- `_get_outliers_impl`: body under the `try/except` boundary. -/
def _get_outliers_impl (tbl : Table) (metric : String) (threshold : ℚ) : OutlierOut :=
  match outliersBody tbl metric threshold with
  | .ok out => out
  | .error e => .err e

/-! ## Correlation analysis (`_get_correlations_impl`, `_interpret_correlation`) -/

/-- `abs(corr_value)` as an executable definition. -/
def absQ (r : ℚ) : ℚ := if r < 0 then -r else r

/-- `_interpret_correlation`, strength component: the `|r| ≥ c` ladder on a
plain correlation value. -/
def corrStrength (r : ℚ) : String :=
  if 4/5 ≤ absQ r then "very strong"
  else if 3/5 ≤ absQ r then "strong"
  else if 2/5 ≤ absQ r then "moderate"
  else if 1/5 ≤ absQ r then "weak"
  else "very weak"

/-- `_interpret_correlation`, direction component:
`"positive" if corr_value > 0 else "negative"`. -/
def corrDirection (r : ℚ) : String :=
  if 0 < r then "positive" else "negative"

/-- `_interpret_correlation` on a plain (non-NaN) correlation value. -/
def _interpret_correlation (r : ℚ) : String :=
  corrStrength r ++ " " ++ corrDirection r ++ " correlation"

/-- `|r| ≥ c` (for `c ≥ 0`) on the square representation of
`r = sxy / √sxxSyy`: true iff the denominator is positive (a zero `sxxSyy`
is pandas' NaN, for which every comparison is false) and `sxy² ≥ c²·sxxSyy`. -/
def corrAbsGe (c : CorrVal) (thr : ℚ) : Bool :=
  0 < c.sxxSyy && thr ^ 2 * c.sxxSyy ≤ c.sxy ^ 2

/-- `_interpret_correlation`, strength ladder on the square representation. -/
def corrStrengthRep (c : CorrVal) : String :=
  if corrAbsGe c (4/5) then "very strong"
  else if corrAbsGe c (3/5) then "strong"
  else if corrAbsGe c (2/5) then "moderate"
  else if corrAbsGe c (1/5) then "weak"
  else "very weak"

/-- `corr_value > 0` on the square representation: `r > 0` iff the
denominator is positive (NaN compares false) and `sxy > 0`. -/
def corrPositive (c : CorrVal) : Bool :=
  0 < c.sxxSyy && 0 < c.sxy

/-- `_interpret_correlation`, direction on the square representation. -/
def corrDirectionRep (c : CorrVal) : String :=
  if corrPositive c then "positive" else "negative"

/-- `_interpret_correlation` applied to a pipeline correlation, which is
carried in square representation. -/
def interpretRep (c : CorrVal) : String :=
  corrStrengthRep c ++ " " ++ corrDirectionRep c ++ " correlation"

/-- The fixed `numeric_cols` of `_get_correlations_impl`. -/
def numericCols : List String :=
  ["mortality_count", "mortality_rate", "incidence_rate", "incidence_count"]

/-- The `i < j` pairs of a list in the source's double-loop order. -/
def upperPairs {α : Type} : List α → List (α × α)
  | [] => []
  | x :: rest => (rest.map (fun y => (x, y))) ++ upperPairs rest

/-- One named entry of the `correlations` dict. -/
structure CorrEntry where
  key : String
  metric1 : String
  metric2 : String
  correlation : CorrVal
  interpretation : String
deriving DecidableEq, Repr

/-- The success dict of `_get_correlations_impl`: the named upper-triangle
pairs, the full 4×4 matrix, and the record count. -/
structure CorrelationResult where
  correlations : List CorrEntry
  correlation_matrix : List (String × String × CorrVal)
  total_records : ℕ
deriving DecidableEq, Repr

/-- Return value of the correlation operation. -/
inductive CorrOut where
  | err (msg : String)
  | ok (r : CorrelationResult)
deriving DecidableEq, Repr

/-- The pairwise Pearson correlation of two metric columns of a table. -/
def tableCorr (tbl : Table) (m1 m2 : String) : CorrVal :=
  pearsonRep (colVals tbl m1) (colVals tbl m2)

/-- Body of `_get_correlations_impl` (inside the `try`); the four column
names are fixed and valid, so the body never raises. -/
def correlationsBody (tbl : Table) : Except String CorrOut :=
  let data := getCancerData tbl none none none
  if data = [] then .ok (.err "No data available")
  else
    .ok (.ok {
      correlations := (upperPairs numericCols).map (fun p =>
        { key := p.1 ++ "_vs_" ++ p.2,
          metric1 := p.1,
          metric2 := p.2,
          correlation := tableCorr data p.1 p.2,
          interpretation := interpretRep (tableCorr data p.1 p.2) }),
      correlation_matrix := (numericCols.map (fun a =>
        numericCols.map (fun b => (a, b, tableCorr data a b)))).flatten,
      total_records := data.length })

/-- `_get_correlations_impl`: body under the `try/except` boundary. -/
def _get_correlations_impl (tbl : Table) : CorrOut :=
  match correlationsBody tbl with
  | .ok out => out
  | .error e => .err e

/-! ## Cache service (`CacheService`) -/

/-- The `_cache` dict: an association list read through its most recent
binding for a key. -/
abbrev Cache (α : Type) := List (String × α)

/-- `CacheService.get`: the stored value, or `none` on a miss. -/
def cacheGet {α : Type} (c : Cache α) (k : String) : Option α :=
  (c.find? (fun p => p.1 = k)).map (·.2)

/-- `CacheService.set`: stores the value under the key.  The `timeout`
argument is accepted and discarded, exactly as in the source (it is never
recorded nor checked). -/
def cacheSet {α : Type} (c : Cache α) (k : String) (v : α)
    (timeout : Option ℤ) : Cache α :=
  (k, v) :: c

/-- `CacheService.delete`: removes the key's entry (a no-op when absent). -/
def cacheDelete {α : Type} (c : Cache α) (k : String) : Cache α :=
  c.filter (fun p => p.1 ≠ k)

/-- `CacheService.clear`: removes everything. -/
def cacheClear {α : Type} (_c : Cache α) : Cache α := []

/-- One call against the cache service. -/
inductive CacheOp (α : Type) where
  | setOp (k : String) (v : α) (timeout : Option ℤ)
  | deleteOp (k : String)
  | clearOp
  | getOp (k : String)
deriving DecidableEq

/-- State transition of one cache call (`get` reads without writing). -/
def applyOp {α : Type} (c : Cache α) : CacheOp α → Cache α
  | .setOp k v t => cacheSet c k v t
  | .deleteOp k => cacheDelete c k
  | .clearOp => cacheClear c
  | .getOp _ => c

/-- State after a sequence of cache calls. -/
def applyOps {α : Type} (c : Cache α) (ops : List (CacheOp α)) : Cache α :=
  ops.foldl applyOp c

/-- Whether a call writes to the given key (a write to another key, or any
read, leaves it untouched). -/
def opTouchesKey {α : Type} (k : String) : CacheOp α → Bool
  | .setOp k' _ _ => k' = k
  | .deleteOp k' => k' = k
  | .clearOp => true
  | .getOp _ => false

/-- Whether a call can remove the key: only its explicit delete or a clear. -/
def opRemovesKey {α : Type} (k : String) : CacheOp α → Bool
  | .setOp _ _ _ => false
  | .deleteOp k' => k' = k
  | .clearOp => true
  | .getOp _ => false

/-! ## Sort relations used by the source's descending sorts -/

instance : IsTotal OutlierRow (fun a b => b.z_score_sq ≤ a.z_score_sq) :=
  ⟨fun a b => le_total b.z_score_sq a.z_score_sq⟩

instance : IsTrans OutlierRow (fun a b => b.z_score_sq ≤ a.z_score_sq) :=
  ⟨fun _ _ _ h1 h2 => le_trans h2 h1⟩

instance : IsTotal (String × StateStats) (fun a b => b.2.mean ≤ a.2.mean) :=
  ⟨fun a b => le_total b.2.mean a.2.mean⟩

instance : IsTrans (String × StateStats) (fun a b => b.2.mean ≤ a.2.mean) :=
  ⟨fun _ _ _ h1 h2 => le_trans h2 h1⟩

/-- Whether a state's filtered subset of the table is non-empty (the
`if not data.empty` test of the comparison loop). -/
def hasData (tbl : Table) (cancer_type : Option String) (s : String) : Bool :=
  getCancerData tbl (some s) none cancer_type ≠ []

/-! ## Concrete tables for witnesses and counterexamples -/

/-- Two-year single-state table, metric means 10 then 20 (the spec §8
scenario). -/
def sampleTableA : Table :=
  [⟨"all", 2018, "Persons", "A", 1, 10, 3, 4⟩,
   ⟨"all", 2019, "Persons", "A", 1, 20, 3, 4⟩]

/-- The trend result of `sampleTableA` on `mortality_rate`. -/
def trendResA : TrendResult :=
  { trend_direction := "increasing", slope := 10, correlation := ⟨5, 25⟩,
    percent_change := 100, years_analyzed := 2, first_year := 2018,
    last_year := 2019, first_value := 10, last_value := 20,
    mean_value := 15, std_value_sq := 25 }

/-- Two-year table whose first-year metric mean is 0 (zero percent-change
baseline). -/
def sampleTableZ : Table :=
  [⟨"all", 2018, "Persons", "A", 1, 0, 3, 4⟩,
   ⟨"all", 2019, "Persons", "A", 1, 10, 3, 4⟩]

/-- The trend result of `sampleTableZ` on `mortality_rate`; its
`percent_change` is the embedding's junk `0` for the source's unguarded
division of 10 by the zero baseline. -/
def trendResZ : TrendResult :=
  { trend_direction := "increasing", slope := 10, correlation := ⟨5, 25⟩,
    percent_change := 0, years_analyzed := 2, first_year := 2018,
    last_year := 2019, first_value := 0, last_value := 10,
    mean_value := 5, std_value_sq := 25 }

/-- Three states in one year with metric values 0, 2, 4: sample variance 4,
z-scores 1, 0, 1. -/
def sampleTableV : Table :=
  [⟨"all", 2018, "Persons", "A", 1, 0, 3, 4⟩,
   ⟨"all", 2018, "Persons", "B", 1, 2, 3, 4⟩,
   ⟨"all", 2018, "Persons", "C", 1, 4, 3, 4⟩]

/-- A cache-call sequence touching only keys other than `"trends"`. -/
def sampleCacheOps : List (CacheOp ℕ) :=
  [.setOp "top" 1 none, .getOp "trends", .deleteOp "top", .getOp "other"]

/-! ## Helper lemmas -/

theorem getCancerData_none (tbl : Table) : getCancerData tbl none none none = tbl := by
  simp [getCancerData]

theorem mem_dedupFirst {α : Type} [DecidableEq α] {a : α} :
    ∀ {l : List α}, a ∈ dedupFirst l ↔ a ∈ l := by
  intro l
  induction l with
  | nil => simp [dedupFirst]
  | cons x rest ih =>
    simp only [dedupFirst, List.mem_cons, List.mem_filter]
    constructor
    · rintro (rfl | ⟨h, _⟩)
      · exact Or.inl rfl
      · exact Or.inr (ih.mp h)
    · rintro (rfl | h)
      · exact Or.inl rfl
      · by_cases hx : a = x
        · exact Or.inl hx
        · exact Or.inr ⟨ih.mpr h, by simpa using hx⟩

theorem nodup_dedupFirst {α : Type} [DecidableEq α] :
    ∀ (l : List α), (dedupFirst l).Nodup := by
  intro l
  induction l with
  | nil => simp [dedupFirst]
  | cons x rest ih =>
    simp only [dedupFirst, List.nodup_cons]
    refine ⟨fun hx => ?_, ih.filter _⟩
    have := (List.mem_filter.mp hx).2
    simp at this

theorem headI_map {α β : Type} [Inhabited α] [Inhabited β] (f : α → β) :
    ∀ {l : List α}, l ≠ [] → (l.map f).headI = f l.headI := by
  intro l h
  cases l with
  | nil => exact absurd rfl h
  | cons x xs => simp

theorem getLastI_map {α β : Type} [Inhabited α] [Inhabited β] (f : α → β) :
    ∀ {l : List α}, l ≠ [] → (l.map f).getLastI = f l.getLastI := by
  intro l h
  induction l with
  | nil => exact absurd rfl h
  | cons x xs ih =>
    cases xs with
    | nil => simp [List.getLastI]
    | cons y ys =>
      have := ih (by simp)
      simpa [List.getLastI_eq_getLast?, List.getLast?] using this

theorem collectCompare_nil_table (cancer_type : Option String) (metric : String) :
    ∀ (ss : List String), collectCompare [] cancer_type metric ss = .ok [] := by
  intro ss
  induction ss with
  | nil => rfl
  | cons s rest ih => simpa [collectCompare, getCancerData] using ih

/-! ## C10 -/

/-- C10 (confirmed): the direction component of the correlation
interpretation is `"positive"` exactly when the correlation value is
strictly greater than `0`; a correlation of exactly `0` is labelled
`"negative"` (here inside `"very weak negative correlation"`). -/
theorem interpret_correlation_direction (r : ℚ) :
    (corrDirection r = "positive" ↔ 0 < r) ∧
    _interpret_correlation 0 = "very weak negative correlation" := by
  constructor
  · unfold corrDirection
    by_cases h : 0 < r <;> simp [h]
  · with_unfolding_all decide

/-! ## C1 -/

/-- C1 (counterexample): called with an empty state list, the comparison
operation `_compare_states_impl` does not fail with an `InvalidInput` error —
it returns a success payload (empty `comparison_data`, zero summary),
contradicting the claim. -/
theorem compare_states_empty_success :
    _compare_states_impl sampleTableA [] "mortality_rate" none =
      CompareOut.ok
        { states_compared := [], metric := "mortality_rate", cancer_type := none,
          comparison_data := [], summary := ⟨0, 0, 0⟩ } := by
  rfl

/-- C1 (amended): for every metric and optional cancer type, the engine
operation on an empty state list returns a success payload with empty
comparison data and a zero summary; the empty-list `InvalidInput` rejection
lives one layer up, in the `/api/analytics/compare-states` route handler,
which answers 400 `"No states provided for comparison"` without calling the
engine. -/
theorem compare_states_empty_behavior (tbl : Table) (metric : String)
    (cancer_type : Option String) :
    _compare_states_impl tbl [] metric cancer_type =
      CompareOut.ok
        { states_compared := [], metric := metric, cancer_type := cancer_type,
          comparison_data := [], summary := ⟨0, 0, 0⟩ } ∧
    compare_states_route tbl [] metric cancer_type =
      CompareRoute.badRequest "No states provided for comparison" := by
  exact ⟨rfl, rfl⟩

/-! ## C4 -/

/-- C4 (counterexample): on an empty Table the outlier operation returns the
success payload `{'outliers': [], 'total_records': 0}` and the top-states
operation returns the empty list — not the "insufficient data" error object
the claim requires of every derived-result operation. -/
theorem empty_table_success_payloads :
    _get_outliers_impl [] "mortality_rate" 2 = OutlierOut.emptyData ∧
    _get_top_states_impl [] "mortality_rate" none none 10 = [] := by
  exact ⟨rfl, rfl⟩

/-- C4 (amended): on an empty Table, the trend and correlation operations
return the `{'error': 'No data available'}` object, but the top-states
operation returns an empty list, the outlier operation returns the success
shape `{'outliers': [], 'total_records': 0}`, and the comparison operation
returns a success payload with empty comparison data and a zero summary. -/
theorem empty_table_behavior (state cancer_type : Option String) (metric : String)
    (year : Option ℤ) (limit : ℕ) (threshold : ℚ) (states : List String) :
    _calculate_trends_impl [] state cancer_type metric = TrendOut.err "No data available" ∧
    _get_correlations_impl [] = CorrOut.err "No data available" ∧
    _get_top_states_impl [] metric cancer_type year limit = [] ∧
    _get_outliers_impl [] metric threshold = OutlierOut.emptyData ∧
    _compare_states_impl [] states metric cancer_type =
      CompareOut.ok
        { states_compared := states, metric := metric, cancer_type := cancer_type,
          comparison_data := [], summary := ⟨0, 0, 0⟩ } := by
  refine ⟨?_, rfl, ?_, rfl, ?_⟩
  · simp [_calculate_trends_impl, trendsBody, getCancerData]
  · simp [_get_top_states_impl, topStatesBody, getCancerData]
  · simp [_compare_states_impl, compareBody, collectCompare_nil_table, rankEntries,
      maxD, minD]

/-! ## C3 -/

/-- C3 (counterexample): an internal failure of the top-states operation (a
`KeyError` for an unknown metric column) is converted to the empty list — a
success-shaped payload — and not to the `{error: message}` object the claim
says every operation produces for internal failures. -/
theorem top_states_failure_not_error_shape :
    topStatesBody sampleTableA "bogus" none none 10 = Except.error (keyError "bogus") ∧
    _get_top_states_impl sampleTableA "bogus" none none 10 = [] := by
  exact ⟨by with_unfolding_all rfl, by with_unfolding_all rfl⟩

/-- C3 (amended): every public operation catches all internal failures at its
`try/except` boundary and never lets one escape; the trend, comparison,
outlier and correlation operations convert a failure to the
`{'error': str(e)}` object, while the top-states operation converts it to the
empty list (a success-shaped payload).  On a non-failing body every operation
returns the body's payload unchanged. -/
theorem operation_boundary_conversion (tbl : Table) (state cancer_type : Option String)
    (metric : String) (states : List String) (year : Option ℤ) (limit : ℕ)
    (threshold : ℚ) :
    (∀ e, trendsBody tbl state cancer_type metric = .error e →
      _calculate_trends_impl tbl state cancer_type metric = .err e) ∧
    (∀ out, trendsBody tbl state cancer_type metric = .ok out →
      _calculate_trends_impl tbl state cancer_type metric = out) ∧
    (∀ e, compareBody tbl states metric cancer_type = .error e →
      _compare_states_impl tbl states metric cancer_type = .err e) ∧
    (∀ out, compareBody tbl states metric cancer_type = .ok out →
      _compare_states_impl tbl states metric cancer_type = out) ∧
    (∀ e, outliersBody tbl metric threshold = .error e →
      _get_outliers_impl tbl metric threshold = .err e) ∧
    (∀ out, outliersBody tbl metric threshold = .ok out →
      _get_outliers_impl tbl metric threshold = out) ∧
    (∀ e, correlationsBody tbl = .error e → _get_correlations_impl tbl = .err e) ∧
    (∀ out, correlationsBody tbl = .ok out → _get_correlations_impl tbl = out) ∧
    (∀ e, topStatesBody tbl metric cancer_type year limit = .error e →
      _get_top_states_impl tbl metric cancer_type year limit = []) ∧
    (∀ rows, topStatesBody tbl metric cancer_type year limit = .ok rows →
      _get_top_states_impl tbl metric cancer_type year limit = rows) := by
  refine ⟨?_, ?_, ?_, ?_, ?_, ?_, ?_, ?_, ?_, ?_⟩ <;> intro x h <;>
    simp [_calculate_trends_impl, _compare_states_impl, _get_outliers_impl,
      _get_correlations_impl, _get_top_states_impl, h]

/-- C3 (witness): the boundary conversion at a concrete internal failure — a
trend computation over a non-empty table with an unknown metric column
raises a `KeyError`, which the operation converts to the error object. -/
theorem operation_boundary_conversion_witness :
    _calculate_trends_impl sampleTableA none none "bogus" = TrendOut.err (keyError "bogus") :=
  (operation_boundary_conversion sampleTableA none none "bogus" [] none 10 2).1
    (keyError "bogus") (by with_unfolding_all rfl)

/-! ## C2 -/

set_option maxRecDepth 100000 in
/-- C2 (counterexample): on a two-year table whose first-year metric mean is
0, the trend operation does not fail with a `DivisionByZero` error — it
returns the full success payload.  (In the source the unguarded IEEE division
produces a non-finite float without raising; the embedded `percent_change`
field carries the junk value 0 for that division.) -/
theorem trends_zero_baseline_no_failure :
    _calculate_trends_impl sampleTableZ none none "mortality_rate" = TrendOut.ok trendResZ ∧
    trendResZ.first_value = 0 := by
  exact ⟨by with_unfolding_all decide, rfl⟩

theorem calculate_trends_eq (tbl : Table) (state cancer_type : Option String)
    (metric : String) :
    _calculate_trends_impl tbl state cancer_type metric =
      (if getCancerData tbl state none cancer_type = [] then .err "No data available"
       else if ¬ isMetric metric then .err (keyError metric)
       else if (sortedYears (getCancerData tbl state none cancer_type)).length < 2 then
         .err "Insufficient data for trend analysis"
       else .ok (trendSuccess (getCancerData tbl state none cancer_type) metric)) := by
  unfold _calculate_trends_impl trendsBody
  by_cases h1 : getCancerData tbl state none cancer_type = [] <;>
    by_cases h2 : isMetric metric <;>
      by_cases h3 : (sortedYears (getCancerData tbl state none cancer_type)).length < 2 <;>
        simp [h1, h2, h3]

/-- C2 (amended): on data with at least 2 distinct years and a valid metric,
the trend operation returns a success payload whose `first_value` and
`last_value` are the per-year metric means of the first and last year, and —
whenever `first_value ≠ 0` — whose `percent_change` equals
`(last_value − first_value) / first_value × 100`.  When `first_value` is 0
the operation still returns the success payload (the source's division is
unguarded and produces a non-finite float instead of a `DivisionByZero`
failure; see the counterexample). -/
theorem trends_percent_change_formula (tbl : Table) (state cancer_type : Option String)
    (metric : String) (hm : isMetric metric = true)
    (h2 : 2 ≤ (sortedYears (getCancerData tbl state none cancer_type)).length) :
    ∃ r, _calculate_trends_impl tbl state cancer_type metric = TrendOut.ok r ∧
      r.first_value = yearMean (getCancerData tbl state none cancer_type) metric
        ((sortedYears (getCancerData tbl state none cancer_type)).headI) ∧
      r.last_value = yearMean (getCancerData tbl state none cancer_type) metric
        ((sortedYears (getCancerData tbl state none cancer_type)).getLastI) ∧
      (r.first_value ≠ 0 →
        r.percent_change = (r.last_value - r.first_value) / r.first_value * 100) := by
  have hyne : sortedYears (getCancerData tbl state none cancer_type) ≠ [] := by
    intro h
    rw [h] at h2
    simp at h2
  have hne : getCancerData tbl state none cancer_type ≠ [] := by
    intro h
    rw [h] at h2
    simp [sortedYears, dedupFirst] at h2
  refine ⟨trendSuccess (getCancerData tbl state none cancer_type) metric, ?_, ?_, ?_, ?_⟩
  · rw [calculate_trends_eq]
    simp [hne, hm, Nat.not_lt.mpr h2]
  · simpa [trendSuccess] using headI_map (fun yr =>
      yearMean (getCancerData tbl state none cancer_type) metric yr) hyne
  · simpa [trendSuccess] using getLastI_map (fun yr =>
      yearMean (getCancerData tbl state none cancer_type) metric yr) hyne
  · intro _
    rfl

set_option maxRecDepth 100000 in
/-- C2 (amended, witness): the formula at the spec §8 scenario table, whose
baseline is 10 and whose percent change is 100. -/
theorem trends_percent_change_formula_witness :
    isMetric "mortality_rate" = true ∧
    2 ≤ (sortedYears (getCancerData sampleTableA none none none)).length ∧
    (∃ r, _calculate_trends_impl sampleTableA none none "mortality_rate" = TrendOut.ok r ∧
      r.first_value = yearMean (getCancerData sampleTableA none none none) "mortality_rate"
        ((sortedYears (getCancerData sampleTableA none none none)).headI) ∧
      r.last_value = yearMean (getCancerData sampleTableA none none none) "mortality_rate"
        ((sortedYears (getCancerData sampleTableA none none none)).getLastI) ∧
      (r.first_value ≠ 0 →
        r.percent_change = (r.last_value - r.first_value) / r.first_value * 100)) :=
  ⟨rfl, by with_unfolding_all decide,
    trends_percent_change_formula sampleTableA none none "mortality_rate" rfl
      (by with_unfolding_all decide)⟩

/-! ## C5 -/

/-- C5 (confirmed): whenever the trend operation returns a success payload,
its direction is classified from its slope by the 0.1 threshold rule:
`slope > 0.1` gives `"increasing"`, `slope < −0.1` gives `"decreasing"`,
anything else `"stable"`. -/
theorem trend_direction_matches_slope (tbl : Table) (state cancer_type : Option String)
    (metric : String) (r : TrendResult)
    (h : _calculate_trends_impl tbl state cancer_type metric = TrendOut.ok r) :
    r.trend_direction =
      (if 1/10 < r.slope then "increasing"
       else if r.slope < -(1/10) then "decreasing"
       else "stable") := by
  rw [calculate_trends_eq] at h
  split_ifs at h <;> injection h with h'
  subst h'
  rfl

set_option maxRecDepth 100000 in
/-- C5 (witness): the classification at the spec §8 scenario table, whose
slope is 10 and direction "increasing". -/
theorem trend_direction_matches_slope_witness :
    _calculate_trends_impl sampleTableA none none "mortality_rate" = TrendOut.ok trendResA ∧
    trendResA.trend_direction =
      (if 1/10 < trendResA.slope then "increasing"
       else if trendResA.slope < -(1/10) then "decreasing"
       else "stable") :=
  ⟨by with_unfolding_all decide,
    trend_direction_matches_slope sampleTableA none none "mortality_rate" trendResA
      (by with_unfolding_all decide)⟩

/-! ## C6 -/

/-- C6 (confirmed): on a non-empty Table with nonzero sample variance of the
metric, the outlier result's list contains only rows whose z-score exceeds
the threshold (`zAboveThreshold` is `z > threshold` on the squared
representation), is sorted by non-increasing z-score, and has length at most
20, while `total_outliers` counts all table rows exceeding the threshold. -/
theorem outliers_properties (tbl : Table) (metric : String) (threshold : ℚ)
    (hne : tbl ≠ []) (hm : isMetric metric = true)
    (hv : varSampQ (colVals tbl metric) ≠ 0) :
    ∃ res, _get_outliers_impl tbl metric threshold = OutlierOut.ok res ∧
      (∀ o ∈ res.outliers, zAboveThreshold threshold o.z_score_sq = true) ∧
      res.outliers.Pairwise (fun a b => b.z_score_sq ≤ a.z_score_sq) ∧
      res.outliers.length ≤ 20 ∧
      res.total_outliers = tbl.countP (fun r =>
        zAboveThreshold threshold
          (((metricOf r metric).getD 0 - meanQ (colVals tbl metric)) ^ 2 /
            varSampQ (colVals tbl metric))) := by
  set μ := meanQ (colVals tbl metric) with hμ
  set v := varSampQ (colVals tbl metric) with hvdef
  set rows := tbl.map (mkOutlierRow metric μ v) with hrows
  set sel := rows.filter (fun o => zAboveThreshold threshold o.z_score_sq) with hsel
  set srt := List.insertionSort (fun a b => b.z_score_sq ≤ a.z_score_sq) sel with hsrt
  refine ⟨{ outliers := srt.take 20, total_outliers := sel.length,
            total_records := tbl.length, threshold := threshold, metric := metric,
            dataset_mean := μ, dataset_var := v }, ?_, ?_, ?_, ?_, ?_⟩
  · have hbody : outliersBody tbl metric threshold =
        .ok (.ok { outliers := srt.take 20, total_outliers := sel.length,
                   total_records := tbl.length, threshold := threshold, metric := metric,
                   dataset_mean := μ, dataset_var := v }) := by
      unfold outliersBody
      simp only [getCancerData_none]
      rw [if_neg hne, if_neg (by simp [hm]), if_neg hv]
    unfold _get_outliers_impl
    rw [hbody]
  · intro o ho
    have h1 : o ∈ srt := List.take_subset _ _ ho
    have h2 : o ∈ sel := by
      rw [hsrt] at h1
      rwa [List.mem_insertionSort] at h1
    exact (List.mem_filter.mp h2).2
  · have hs : List.Sorted (fun a b : OutlierRow => b.z_score_sq ≤ a.z_score_sq) srt :=
      List.sorted_insertionSort _ _
    exact List.Pairwise.sublist (List.take_sublist _ _) hs
  · exact List.length_take_le _ _
  · show (List.filter (fun o => zAboveThreshold threshold o.z_score_sq)
        (List.map (mkOutlierRow metric μ v) tbl)).length = _
    rw [← List.countP_eq_length_filter, List.countP_map]
    rfl

set_option maxRecDepth 1000000 in
/-- C6 (witness): the outlier properties at a three-row table with metric
values 0, 2, 4 (sample variance 4) and threshold 0.9, which selects the two
rows with z-score 1. -/
theorem outliers_properties_witness :
    sampleTableV ≠ [] ∧ isMetric "mortality_rate" = true ∧
    varSampQ (colVals sampleTableV "mortality_rate") ≠ 0 ∧
    (∃ res, _get_outliers_impl sampleTableV "mortality_rate" (9/10) = OutlierOut.ok res ∧
      (∀ o ∈ res.outliers, zAboveThreshold (9/10) o.z_score_sq = true) ∧
      res.outliers.Pairwise (fun a b => b.z_score_sq ≤ a.z_score_sq) ∧
      res.outliers.length ≤ 20 ∧
      res.total_outliers = sampleTableV.countP (fun r =>
        zAboveThreshold (9/10)
          (((metricOf r "mortality_rate").getD 0 -
              meanQ (colVals sampleTableV "mortality_rate")) ^ 2 /
            varSampQ (colVals sampleTableV "mortality_rate")))) :=
  ⟨by decide, rfl, by with_unfolding_all decide,
    outliers_properties sampleTableV "mortality_rate" (9/10) (by decide) rfl
      (by with_unfolding_all decide)⟩

/-! ## C9 -/

theorem cacheGet_set_self {α : Type} (c : Cache α) (k : String) (v : α) (t : Option ℤ) :
    cacheGet (cacheSet c k v t) k = some v := by
  simp [cacheGet, cacheSet, List.find?_cons]

theorem find?_key_filter {α : Type} (k k' : String) (h : k' ≠ k) :
    ∀ (l : List (String × α)),
      List.find? (fun p => p.1 = k) (l.filter (fun p => p.1 ≠ k')) =
        List.find? (fun p => p.1 = k) l := by
  intro l
  induction l with
  | nil => rfl
  | cons p rest ih =>
    by_cases h1 : p.1 = k
    · have h2 : p.1 ≠ k' := fun hh => h (hh ▸ h1)
      rw [List.filter_cons_of_pos (by simpa using h2),
        List.find?_cons_of_pos _ (by simpa using h1),
        List.find?_cons_of_pos _ (by simpa using h1)]
    · by_cases h2 : p.1 = k'
      · rw [List.filter_cons_of_neg (by simpa using h2),
          List.find?_cons_of_neg _ (by simpa using h1)]
        exact ih
      · rw [List.filter_cons_of_pos (by simpa using h2),
          List.find?_cons_of_neg _ (by simpa using h1),
          List.find?_cons_of_neg _ (by simpa using h1)]
        exact ih

theorem cacheGet_delete_ne {α : Type} (c : Cache α) {k k' : String} (h : k' ≠ k) :
    cacheGet (cacheDelete c k') k = cacheGet c k := by
  unfold cacheGet cacheDelete
  rw [find?_key_filter k k' h c]

theorem cacheGet_applyOp_untouched {α : Type} (c : Cache α) (k : String)
    (op : CacheOp α) (h : opTouchesKey k op = false) :
    cacheGet (applyOp c op) k = cacheGet c k := by
  cases op with
  | setOp k' v t =>
    simp only [opTouchesKey, decide_eq_false_iff_not] at h
    simp [applyOp, cacheSet, cacheGet, List.find?_cons, h]
  | deleteOp k' =>
    simp only [opTouchesKey, decide_eq_false_iff_not] at h
    exact cacheGet_delete_ne c h
  | clearOp => simp [opTouchesKey] at h
  | getOp k' => rfl

/-- C9 (confirmed): a value stored under a key — with any timeout, which the
cache records nowhere and never checks — is returned by every subsequent get
of that key across any interleaved calls that only write other keys or only
read; and no call other than an explicit delete of the key or a clear of the
whole cache can remove a present entry. -/
theorem cache_no_eviction {α : Type} (c : Cache α) (k : String) (v : α)
    (t : Option ℤ) (ops : List (CacheOp α))
    (h : ∀ op ∈ ops, opTouchesKey k op = false) :
    cacheGet (applyOps (cacheSet c k v t) ops) k = some v ∧
    (∀ (c' : Cache α) (op : CacheOp α), opRemovesKey k op = false →
      (cacheGet c' k).isSome = true → (cacheGet (applyOp c' op) k).isSome = true) := by
  constructor
  · have key : ∀ (l : List (CacheOp α)) (c₀ : Cache α),
        (∀ op ∈ l, opTouchesKey k op = false) → cacheGet c₀ k = some v →
        cacheGet (applyOps c₀ l) k = some v := by
      intro l
      induction l with
      | nil => intro c₀ _ h₀; exact h₀
      | cons op rest ih =>
        intro c₀ hl h₀
        have hop := hl op (List.mem_cons_self op rest)
        have := cacheGet_applyOp_untouched c₀ k op hop
        exact ih (applyOp c₀ op) (fun o ho => hl o (List.mem_cons_of_mem op ho))
          (this.trans h₀)
    exact key ops (cacheSet c k v t) h (cacheGet_set_self c k v t)
  · intro c' op hop hsome
    cases op with
    | setOp k' v' t' =>
      by_cases hk : k' = k
      · subst hk
        simp [applyOp, cacheGet_set_self]
      · rw [cacheGet_applyOp_untouched c' k _ (by simpa [opTouchesKey] using hk)]
        exact hsome
    | deleteOp k' =>
      simp only [opRemovesKey, decide_eq_false_iff_not] at hop
      rw [cacheGet_applyOp_untouched c' k _ (by simpa [opTouchesKey] using hop)]
      exact hsome
    | clearOp => simp [opRemovesKey] at hop
    | getOp k' => exact hsome

/-- C9 (witness): a concrete run — store 7 under `"trends"` with a 600s
timeout, then set and delete another key and perform reads; the get still
returns 7. -/
theorem cache_no_eviction_witness :
    (∀ op ∈ sampleCacheOps, opTouchesKey "trends" op = false) ∧
    cacheGet (applyOps (cacheSet ([] : Cache ℕ) "trends" 7 (some 600)) sampleCacheOps)
      "trends" = some 7 :=
  ⟨by decide,
    (cache_no_eviction ([] : Cache ℕ) "trends" 7 (some 600) sampleCacheOps (by decide)).1⟩

/-! ## C7 -/

theorem collectCompare_ok (tbl : Table) (cancer_type : Option String) (metric : String)
    (hm : isMetric metric = true) :
    ∀ (ss : List String), ∃ l, collectCompare tbl cancer_type metric ss = .ok l ∧
      l.map Prod.fst = ss.filter (hasData tbl cancer_type) := by
  intro ss
  induction ss with
  | nil => exact ⟨[], rfl, rfl⟩
  | cons s rest ih =>
    obtain ⟨l, hl, hkeys⟩ := ih
    by_cases hd : getCancerData tbl (some s) none cancer_type = []
    · refine ⟨l, ?_, ?_⟩
      · simp only [collectCompare, if_pos hd]
        exact hl
      · rw [List.filter_cons_of_neg (by simp [hasData, hd])]
        exact hkeys
    · refine ⟨(s, computeStateStats (getCancerData tbl (some s) none cancer_type) metric)
        :: l, ?_, ?_⟩
      · simp only [collectCompare, if_neg hd, hm, not_true, if_neg, if_false]
        rw [hl]
      · rw [List.filter_cons_of_pos (by simp [hasData, hd])]
        simpa using hkeys

theorem rankEntries_map_state (items : List (String × StateStats)) :
    (rankEntries items).map (·.state) =
      (List.insertionSort (fun a b => b.2.mean ≤ a.2.mean) items).map Prod.fst := by
  conv_rhs => rw [← List.enum_map_snd
    (List.insertionSort (fun a b => b.2.mean ≤ a.2.mean) items)]
  simp only [rankEntries, List.map_map]
  rfl

theorem rankEntries_map_rank (items : List (String × StateStats)) :
    (rankEntries items).map (·.rank_by_mean) = List.range' 1 items.length := by
  have h1 : (rankEntries items).map (·.rank_by_mean) =
      ((List.insertionSort (fun a b => b.2.mean ≤ a.2.mean) items).enum.map
        Prod.fst).map (fun i => i + 1) := by
    simp only [rankEntries, List.map_map]
    rfl
  rw [h1, List.enum_map_fst, List.length_insertionSort]
  rw [List.range'_eq_map_range]
  exact List.map_congr_left (fun i _ => Nat.add_comm 1 i) |>.symm

theorem rankEntries_pairwise (items : List (String × StateStats)) :
    (rankEntries items).Pairwise (fun a b => b.stats.mean ≤ a.stats.mean) := by
  have hs : List.Sorted (fun a b : String × StateStats => b.2.mean ≤ a.2.mean)
      (List.insertionSort (fun a b => b.2.mean ≤ a.2.mean) items) :=
    List.sorted_insertionSort _ _
  rw [← List.enum_map_snd
    (List.insertionSort (fun a b => b.2.mean ≤ a.2.mean) items)] at hs
  have henum := List.pairwise_map.mp hs
  unfold rankEntries
  exact List.pairwise_map.mpr henum

theorem rankEntries_length (items : List (String × StateStats)) :
    (rankEntries items).length = items.length := by
  simp [rankEntries]

/-- C7 (confirmed): for a valid metric, the comparison succeeds; every state
appearing in `comparison_data` has a non-empty filtered subset (so states
with an empty subset are silently omitted), every requested state with a
non-empty subset appears, the `rank_by_mean` values are exactly `1..N`
assigned in descending order of mean, `states_count` is the number of
present states (whose names are pairwise distinct), and nothing else. -/
theorem compare_states_ranking (tbl : Table) (states : List String) (metric : String)
    (cancer_type : Option String) (hm : isMetric metric = true) :
    ∃ res, _compare_states_impl tbl states metric cancer_type = CompareOut.ok res ∧
      (∀ e ∈ res.comparison_data, getCancerData tbl (some e.state) none cancer_type ≠ []) ∧
      (∀ s ∈ states, getCancerData tbl (some s) none cancer_type ≠ [] →
        ∃ e ∈ res.comparison_data, e.state = s) ∧
      res.comparison_data.map (·.rank_by_mean) = List.range' 1 res.summary.states_count ∧
      res.comparison_data.Pairwise (fun a b => b.stats.mean ≤ a.stats.mean) ∧
      res.summary.states_count = res.comparison_data.length ∧
      (res.comparison_data.map (·.state)).Nodup := by
  obtain ⟨items, hc, hkeys⟩ :=
    collectCompare_ok tbl cancer_type metric hm (dedupFirst states)
  have himpl : _compare_states_impl tbl states metric cancer_type =
      CompareOut.ok
        { states_compared := states, metric := metric, cancer_type := cancer_type,
          comparison_data := rankEntries items,
          summary :=
            { highest_mean := maxD (items.map (fun p => p.2.mean)),
              lowest_mean := minD (items.map (fun p => p.2.mean)),
              states_count := items.length } } := by
    unfold _compare_states_impl compareBody
    rw [hc]
  have hperm : List.Perm
      ((List.insertionSort (fun a b => b.2.mean ≤ a.2.mean) items).map Prod.fst)
      (items.map Prod.fst) :=
    (List.perm_insertionSort _ items).map Prod.fst
  have hstates : ∀ s, s ∈ (rankEntries items).map (·.state) ↔
      s ∈ (dedupFirst states).filter (hasData tbl cancer_type) := by
    intro s
    rw [rankEntries_map_state, hperm.mem_iff, hkeys]
  refine ⟨_, himpl, ?_, ?_, ?_, ?_, ?_, ?_⟩
  · intro e he
    have : e.state ∈ (rankEntries items).map (·.state) := List.mem_map_of_mem _ he
    have hmem := (hstates e.state).mp this
    have := (List.mem_filter.mp hmem).2
    simpa [hasData] using this
  · intro s hs hne
    have hmem : s ∈ (dedupFirst states).filter (hasData tbl cancer_type) :=
      List.mem_filter.mpr ⟨mem_dedupFirst.mpr hs, by simpa [hasData] using hne⟩
    have := (hstates s).mpr hmem
    obtain ⟨e, he, hes⟩ := List.mem_map.mp this
    exact ⟨e, he, hes⟩
  · exact rankEntries_map_rank items
  · exact rankEntries_pairwise items
  · exact (rankEntries_length items).symm
  · rw [rankEntries_map_state]
    rw [hperm.nodup_iff, hkeys]
    exact (nodup_dedupFirst states).filter _

set_option maxRecDepth 1000000 in
/-- C7 (witness): the ranking at a concrete table with states A, B, C and
request ["B", "A", "Z"], where Z is absent from the table. -/
theorem compare_states_ranking_witness :
    isMetric "mortality_rate" = true ∧
    (∃ res, _compare_states_impl sampleTableV ["B", "A", "Z"] "mortality_rate" none =
        CompareOut.ok res ∧
      (∀ e ∈ res.comparison_data, getCancerData sampleTableV (some e.state) none none ≠ []) ∧
      (∀ s ∈ ["B", "A", "Z"], getCancerData sampleTableV (some s) none none ≠ [] →
        ∃ e ∈ res.comparison_data, e.state = s) ∧
      res.comparison_data.map (·.rank_by_mean) = List.range' 1 res.summary.states_count ∧
      res.comparison_data.Pairwise (fun a b => b.stats.mean ≤ a.stats.mean) ∧
      res.summary.states_count = res.comparison_data.length ∧
      (res.comparison_data.map (·.state)).Nodup) :=
  ⟨rfl, compare_states_ranking sampleTableV ["B", "A", "Z"] "mortality_rate" none rfl⟩

/-! ## C8 -/

theorem corrAbsGe_mono {c : CorrVal} {a b : ℚ} (hb : 0 ≤ b) (hba : b ≤ a)
    (h : corrAbsGe c a = true) : corrAbsGe c b = true := by
  simp only [corrAbsGe, Bool.and_eq_true, decide_eq_true_eq] at h ⊢
  obtain ⟨hs, h2⟩ := h
  refine ⟨hs, le_trans ?_ h2⟩
  have hsq : b ^ 2 ≤ a ^ 2 := by
    have := pow_le_pow_left₀ hb hba 2
    simpa using this
  exact mul_le_mul_of_nonneg_right hsq (le_of_lt hs)

theorem corrStrengthRep_cases (c : CorrVal) :
    (corrStrengthRep c = "very strong" ↔ corrAbsGe c (4/5) = true) ∧
    (corrStrengthRep c = "strong" ↔
      (corrAbsGe c (4/5) = false ∧ corrAbsGe c (3/5) = true)) ∧
    (corrStrengthRep c = "moderate" ↔
      (corrAbsGe c (3/5) = false ∧ corrAbsGe c (2/5) = true)) ∧
    (corrStrengthRep c = "weak" ↔
      (corrAbsGe c (2/5) = false ∧ corrAbsGe c (1/5) = true)) ∧
    (corrStrengthRep c = "very weak" ↔ corrAbsGe c (1/5) = false) := by
  have m1 : corrAbsGe c (4/5) = true → corrAbsGe c (1/5) = true :=
    corrAbsGe_mono (by norm_num) (by norm_num)
  have m2 : corrAbsGe c (3/5) = true → corrAbsGe c (1/5) = true :=
    corrAbsGe_mono (by norm_num) (by norm_num)
  have m3 : corrAbsGe c (2/5) = true → corrAbsGe c (1/5) = true :=
    corrAbsGe_mono (by norm_num) (by norm_num)
  have m4 : corrAbsGe c (4/5) = true → corrAbsGe c (3/5) = true :=
    corrAbsGe_mono (by norm_num) (by norm_num)
  have m5 : corrAbsGe c (4/5) = true → corrAbsGe c (2/5) = true :=
    corrAbsGe_mono (by norm_num) (by norm_num)
  have m6 : corrAbsGe c (3/5) = true → corrAbsGe c (2/5) = true :=
    corrAbsGe_mono (by norm_num) (by norm_num)
  by_cases h45 : corrAbsGe c (4/5) = true <;>
    by_cases h35 : corrAbsGe c (3/5) = true <;>
      by_cases h25 : corrAbsGe c (2/5) = true <;>
        by_cases h15 : corrAbsGe c (1/5) = true <;>
          simp_all [corrStrengthRep]

/-- C8 (confirmed): on a non-empty Table, the correlation analysis emits
exactly the six upper-triangle (i < j) pairs of the four fixed metrics, each
carrying the pairwise Pearson correlation and an interpretation label
determined by the `|r|` thresholds 0.8 / 0.6 / 0.4 / 0.2 (on the square
representation) combined with the sign of r as "positive"/"negative". -/
theorem correlations_upper_triangle (tbl : Table) (hne : tbl ≠ []) :
    ∃ res, _get_correlations_impl tbl = CorrOut.ok res ∧
      res.correlations.map (fun e => (e.metric1, e.metric2)) =
        [("mortality_count", "mortality_rate"), ("mortality_count", "incidence_rate"),
         ("mortality_count", "incidence_count"), ("mortality_rate", "incidence_rate"),
         ("mortality_rate", "incidence_count"), ("incidence_rate", "incidence_count")] ∧
      (∀ e ∈ res.correlations,
        e.key = e.metric1 ++ "_vs_" ++ e.metric2 ∧
        e.correlation = tableCorr tbl e.metric1 e.metric2 ∧
        e.interpretation = interpretRep (tableCorr tbl e.metric1 e.metric2)) ∧
      res.correlations.length = 6 ∧
      res.total_records = tbl.length ∧
      (∀ c : CorrVal,
        (corrStrengthRep c = "very strong" ↔ corrAbsGe c (4/5) = true) ∧
        (corrStrengthRep c = "strong" ↔
          (corrAbsGe c (4/5) = false ∧ corrAbsGe c (3/5) = true)) ∧
        (corrStrengthRep c = "moderate" ↔
          (corrAbsGe c (3/5) = false ∧ corrAbsGe c (2/5) = true)) ∧
        (corrStrengthRep c = "weak" ↔
          (corrAbsGe c (2/5) = false ∧ corrAbsGe c (1/5) = true)) ∧
        (corrStrengthRep c = "very weak" ↔ corrAbsGe c (1/5) = false) ∧
        (corrDirectionRep c = "positive" ↔ corrPositive c = true) ∧
        interpretRep c = corrStrengthRep c ++ " " ++ corrDirectionRep c ++ " correlation") := by
  have himpl : _get_correlations_impl tbl = CorrOut.ok
      { correlations := (upperPairs numericCols).map (fun p =>
          { key := p.1 ++ "_vs_" ++ p.2, metric1 := p.1, metric2 := p.2,
            correlation := tableCorr tbl p.1 p.2,
            interpretation := interpretRep (tableCorr tbl p.1 p.2) }),
        correlation_matrix := (numericCols.map (fun a =>
          numericCols.map (fun b => (a, b, tableCorr tbl a b)))).flatten,
        total_records := tbl.length } := by
    unfold _get_correlations_impl correlationsBody
    simp only [getCancerData_none]
    rw [if_neg hne]
  refine ⟨_, himpl, ?_, ?_, rfl, rfl, ?_⟩
  · rfl
  · intro e he
    simp only [List.mem_map] at he
    obtain ⟨p, _, rfl⟩ := he
    exact ⟨rfl, rfl, rfl⟩
  · intro c
    refine ⟨(corrStrengthRep_cases c).1, (corrStrengthRep_cases c).2.1,
      (corrStrengthRep_cases c).2.2.1, (corrStrengthRep_cases c).2.2.2.1,
      (corrStrengthRep_cases c).2.2.2.2, ?_, rfl⟩
    unfold corrDirectionRep
    by_cases h : corrPositive c = true <;> simp [h]

/-- C8 (witness): the emitted pair structure at a concrete non-empty table. -/
theorem correlations_upper_triangle_witness :
    sampleTableA ≠ [] ∧
    (∃ res, _get_correlations_impl sampleTableA = CorrOut.ok res ∧
      res.correlations.map (fun e => (e.metric1, e.metric2)) =
        [("mortality_count", "mortality_rate"), ("mortality_count", "incidence_rate"),
         ("mortality_count", "incidence_count"), ("mortality_rate", "incidence_rate"),
         ("mortality_rate", "incidence_count"), ("incidence_rate", "incidence_count")]) := by
  refine ⟨by decide, ?_⟩
  obtain ⟨res, h1, h2, _⟩ := correlations_upper_triangle sampleTableA (by decide)
  exact ⟨res, h1, h2⟩
